import Mathlib

/-!
Shallow embedding of the rustfs disk-abstraction layer: the error taxonomy
and classifier (rustfs-disk-core), the quorum/part-status helpers, the local
disk engine (rustfs-disk-local) and the remote disk client
(rustfs-disk-remote), together with proofs of the spec's claims about them.

Machine integers are modelled as Nat/Int (Rust casts made explicit with
`% 2 ^ 64`), fallible operations return `Except`, and the filesystem and
network effects each operation touches are passed as explicit values
(the set of directories present, the outcome of the transport call).
-/

/-- Kinds of low-level I/O errors (std::io::ErrorKind): the four kinds the
classifiers in error_conv.rs match on, plus representative unmatched kinds,
with `other` standing for std::io::ErrorKind::Other (the kind
std::io::Error::other constructs). -/
inductive IoErrorKind where
  | notFound
  | permissionDenied
  | alreadyExists
  | invalidInput
  | connectionRefused
  | brokenPipe
  | invalidData
  | timedOut
  | interrupted
  | unexpectedEof
  | outOfMemory
  | other
deriving DecidableEq

/-- A low-level I/O error (std::io::Error): a kind plus a message. -/
structure IoError where
  kind : IoErrorKind
  message : String
deriving DecidableEq

/-- UUIDs are modelled as strings. -/
abbrev Uuid := String

/-- Timestamps (time::OffsetDateTime) are modelled as integers. -/
abbrev OffsetDateTime := Int

/-- Byte buffers (bytes::Bytes / Vec of u8). -/
abbrev Bytes := List UInt8

/-- The DiskError enumeration of error.rs, in source order: a closed set of
failure kinds, three of which carry payloads (the operation name of
NotImplemented, the nested I/O cause of Io, the free-text message of
Custom). -/
inductive DiskError where
  | MaxVersionsExceeded
  | Unexpected
  | CorruptedFormat
  | CorruptedBackend
  | UnformattedDisk
  | InconsistentDisk
  | UnsupportedDisk
  | DiskFull
  | DiskNotDir
  | DiskNotFound
  | DiskOngoingReq
  | DriveIsRoot
  | FaultyRemoteDisk
  | FaultyDisk
  | DiskAccessDenied
  | FileNotFound
  | FileVersionNotFound
  | TooManyOpenFiles
  | FileNameTooLong
  | VolumeExists
  | IsNotRegular
  | PathNotFound
  | VolumeNotFound
  | VolumeNotEmpty
  | VolumeAccessDenied
  | FileAccessDenied
  | FileCorrupt
  | ShortWrite
  | BitrotHashAlgoInvalid
  | CrossDeviceLink
  | LessData
  | MoreData
  | OutdatedXLMeta
  | PartMissingOrCorrupt
  | NoHealRequired
  | MethodNotAllowed
  | ErasureWriteQuorum
  | ErasureReadQuorum
  | NotImplemented (operation : String)
  | Io (e : IoError)
  | Custom (message : String)
deriving DecidableEq

/-- std::mem::discriminant over DiskError: the index of the constructor,
independent of any payload. -/
def DiskError.discriminant : DiskError → Nat
  | .MaxVersionsExceeded => 0
  | .Unexpected => 1
  | .CorruptedFormat => 2
  | .CorruptedBackend => 3
  | .UnformattedDisk => 4
  | .InconsistentDisk => 5
  | .UnsupportedDisk => 6
  | .DiskFull => 7
  | .DiskNotDir => 8
  | .DiskNotFound => 9
  | .DiskOngoingReq => 10
  | .DriveIsRoot => 11
  | .FaultyRemoteDisk => 12
  | .FaultyDisk => 13
  | .DiskAccessDenied => 14
  | .FileNotFound => 15
  | .FileVersionNotFound => 16
  | .TooManyOpenFiles => 17
  | .FileNameTooLong => 18
  | .VolumeExists => 19
  | .IsNotRegular => 20
  | .PathNotFound => 21
  | .VolumeNotFound => 22
  | .VolumeNotEmpty => 23
  | .VolumeAccessDenied => 24
  | .FileAccessDenied => 25
  | .FileCorrupt => 26
  | .ShortWrite => 27
  | .BitrotHashAlgoInvalid => 28
  | .CrossDeviceLink => 29
  | .LessData => 30
  | .MoreData => 31
  | .OutdatedXLMeta => 32
  | .PartMissingOrCorrupt => 33
  | .NoHealRequired => 34
  | .MethodNotAllowed => 35
  | .ErasureWriteQuorum => 36
  | .ErasureReadQuorum => 37
  | .NotImplemented _ => 38
  | .Io _ => 39
  | .Custom _ => 40

/-- `impl PartialEq for DiskError`: equality compares the discriminants only,
ignoring payloads. -/
def DiskError.eq (a b : DiskError) : Bool :=
  a.discriminant == b.discriminant

/-- `impl Hash for DiskError`: only the discriminant is fed to the hasher,
modelled here as an arbitrary function over the value fed in. -/
def DiskError.hashWith (hasher : Nat → Nat) (a : DiskError) : Nat :=
  hasher a.discriminant

/-- `DiskError::custom`. -/
def DiskError.custom (message : String) : DiskError :=
  .Custom message

/-- `DiskError::not_implemented`. -/
def DiskError.not_implemented (operation : String) : DiskError :=
  .NotImplemented operation

/-- `DiskError::other`: wraps an arbitrary error into the generic Io kind
(std::io::Error::other produces an error of kind Other). -/
def DiskError.other (message : String) : DiskError :=
  .Io { kind := .other, message := message }

/-- The loop of `DiskError::is_all_not_found`: an entry that is present and
compares equal (by kind) to FileNotFound or FileVersionNotFound lets the loop
continue; any other present entry, and any absent (None) entry, returns
false at once. -/
def DiskError.is_all_not_found_loop : List (Option DiskError) → Bool
  | [] => true
  | some e :: rest =>
      if DiskError.eq e .FileNotFound || DiskError.eq e .FileVersionNotFound then
        DiskError.is_all_not_found_loop rest
      else
        false
  | none :: _ => false

/-- `DiskError::is_all_not_found`: the loop over the entries, and then the
final `!errs.is_empty()`. -/
def DiskError.is_all_not_found (errs : List (Option DiskError)) : Bool :=
  DiskError.is_all_not_found_loop errs && !errs.isEmpty

/-- `DiskError::is_err_object_not_found`. -/
def DiskError.is_err_object_not_found (err : DiskError) : Bool :=
  DiskError.eq err .FileNotFound || DiskError.eq err .VolumeNotFound

/-- `DiskError::is_err_version_not_found`. -/
def DiskError.is_err_version_not_found (err : DiskError) : Bool :=
  DiskError.eq err .FileVersionNotFound

/-- constants.rs: part-check status codes. -/
def CHECK_PART_UNKNOWN : Nat := 0

/-- constants.rs: part check succeeded. -/
def CHECK_PART_SUCCESS : Nat := 1

/-- constants.rs: disk not found. -/
def CHECK_PART_DISK_NOT_FOUND : Nat := 2

/-- constants.rs: volume not found. -/
def CHECK_PART_VOLUME_NOT_FOUND : Nat := 3

/-- constants.rs: file not found. -/
def CHECK_PART_FILE_NOT_FOUND : Nat := 4

/-- constants.rs: file corrupt. -/
def CHECK_PART_FILE_CORRUPT : Nat := 5

/-- `conv_part_err_to_int` of traits.rs: maps an optional per-disk error to a
part status code. -/
def conv_part_err_to_int : Option DiskError → Nat
  | none => CHECK_PART_SUCCESS
  | some e =>
      match e with
      | .DiskNotFound => CHECK_PART_DISK_NOT_FOUND
      | .VolumeNotFound => CHECK_PART_VOLUME_NOT_FOUND
      | .FileNotFound => CHECK_PART_FILE_NOT_FOUND
      | .FileCorrupt => CHECK_PART_FILE_CORRUPT
      | _ => CHECK_PART_UNKNOWN

/-- `has_part_err` of traits.rs: any entry differing from success. -/
def has_part_err (part_errs : List Nat) : Bool :=
  part_errs.any (fun err => err != CHECK_PART_SUCCESS)

/-- `to_file_error` of error_conv.rs. -/
def to_file_error (err : IoError) : DiskError :=
  match err.kind with
  | .notFound => .FileNotFound
  | .permissionDenied => .FileAccessDenied
  | .invalidInput => .FileNameTooLong
  | _ => .Io err

/-- `to_access_error` of error_conv.rs. -/
def to_access_error (err : IoError) : DiskError :=
  match err.kind with
  | .permissionDenied => .DiskAccessDenied
  | _ => .Io err

/-- `to_volume_error` of error_conv.rs. -/
def to_volume_error (err : IoError) : DiskError :=
  match err.kind with
  | .notFound => .VolumeNotFound
  | .permissionDenied => .VolumeAccessDenied
  | .alreadyExists => .VolumeExists
  | _ => .Io err

/-- `to_unformatted_disk_error` of error_conv.rs. -/
def to_unformatted_disk_error (err : IoError) : DiskError :=
  match err.kind with
  | .notFound => .UnformattedDisk
  | _ => .Io err

/-- types.rs: DiskLocation, the placement triple as optional values. -/
structure DiskLocation where
  pool_idx : Option Nat
  set_idx : Option Nat
  disk_idx : Option Nat
deriving DecidableEq

/-- `DiskLocation::valid`: all three indices present. -/
def DiskLocation.valid (l : DiskLocation) : Bool :=
  l.pool_idx.isSome && l.set_idx.isSome && l.disk_idx.isSome

/-- types.rs: VolumeInfo. -/
structure VolumeInfo where
  name : String
  created : Option OffsetDateTime
deriving DecidableEq

/-- types.rs: FileInfo (a single object version). -/
structure FileInfo where
  name : String
  version_id : Option String
  size : Nat
  mod_time : Option OffsetDateTime
deriving DecidableEq

/-- types.rs: FileInfoVersions. -/
structure FileInfoVersions where
  volume : String
  name : String
  latest_mod_time : Option OffsetDateTime
  versions : List FileInfo
  free_versions : List FileInfo
deriving DecidableEq

/-- types.rs: DiskInfo. -/
structure DiskInfo where
  total : Nat
  free : Nat
  used : Nat
  used_inodes : Nat
  free_inodes : Nat
  major : Nat
  minor : Nat
  nr_requests : Nat
  fs_type : String
  root_disk : Bool
  healing : Bool
  scanning : Bool
  endpoint : String
  mount_path : String
  id : String
  rotational : Bool
  error : String
deriving DecidableEq

/-- types.rs: DiskInfoOptions. -/
structure DiskInfoOptions where
  disk_id : String
  metrics : Bool
  noop : Bool
deriving DecidableEq

/-- types.rs: DeleteOptions. -/
structure DeleteOptions where
  recursive : Bool
  immediate : Bool
  undo_write : Bool
  old_data_dir : Option Uuid
deriving DecidableEq

/-- types.rs: UpdateMetadataOpts. -/
structure UpdateMetadataOpts where
  no_persistence : Bool
deriving DecidableEq

/-- types.rs: ReadOptions. -/
structure ReadOptions where
  incl_free_versions : Bool
  read_data : Bool
  healing : Bool
deriving DecidableEq

/-- types.rs: CheckPartsResp, one status code per part. -/
structure CheckPartsResp where
  results : List Nat
deriving DecidableEq

/-- types.rs: WalkDirOptions. -/
structure WalkDirOptions where
  bucket : String
  base_dir : String
  recursive : Bool
  report_notfound : Bool
  filter_prefix : Option String
  forward_to : Option String
  limit : Int
  disk_id : String
deriving DecidableEq

/-- types.rs: RenameDataResp. -/
structure RenameDataResp where
  old_data_dir : Option Uuid
  sign : Option Bytes
deriving DecidableEq

/-- types.rs: ReadMultipleReq. The source field `prefix` is renamed
`prefix_` because `prefix` is a Lean keyword. -/
structure ReadMultipleReq where
  bucket : String
  prefix_ : String
  files : List String
  max_size : Nat
  metadata_only : Bool
  abort404 : Bool
  max_results : Nat
deriving DecidableEq

/-- types.rs: ReadMultipleResp. The source field `prefix` is renamed
`prefix_` because `prefix` is a Lean keyword. -/
structure ReadMultipleResp where
  bucket : String
  prefix_ : String
  file : String
  exists_ : Bool
  error : String
  data : Bytes
  mod_time : Option OffsetDateTime
deriving DecidableEq

/-- The Endpoint record. Its defining module (rustfs-disk-core's endpoint.rs)
is not among the given sources; the fields are exactly those the in-repo
code constructs and reads (remote.rs tests, local.rs, unified.rs): a url,
the locality flag, and signed 32-bit pool/set/disk indices, negative when
the placement is unknown. Modelled from the spec: "network address or path,
locality flag, and triple (pool index, set index, disk index) placing the
disk in the pool topology. Immutable after construction." -/
structure Endpoint where
  url : String
  is_local : Bool
  pool_idx : Int
  set_idx : Int
  disk_idx : Int
deriving DecidableEq

/-- `Endpoint::get_file_path`. Modelled from the spec: the endpoint carries a
"network address or path"; for a disk the file path is the path carried by
the url. Its exact extraction is irrelevant to the claims, which never
inspect the produced path. -/
def Endpoint.get_file_path (ep : Endpoint) : String :=
  ep.url

/-- The Rust cast `x as usize` applied to a signed index (usize is 64-bit):
the two's-complement bits reinterpreted as unsigned, i.e. x mod 2^64. -/
def usizeOfI32 (x : Int) : Nat :=
  (x % (2 ^ 64)).toNat

/-- local.rs: the LocalDisk record. The format field's FormatV3 (format.rs is
not among the sources) is never inspected by any operation here and is
modelled as Unit. -/
structure LocalDisk where
  root_path : String
  endpoint : Endpoint
  location : DiskLocation
  format : Option Unit
  formatted : Bool

/-- The LocalDisk value `LocalDisk::new` produces on success: root path from
the endpoint, and the location built by casting the endpoint's signed
indices to usize unconditionally (`endpoint.pool_idx as usize`, ...). -/
def LocalDisk.ofEndpoint (endpoint : Endpoint) : LocalDisk where
  root_path := endpoint.get_file_path
  endpoint := endpoint
  location :=
    { pool_idx := some (usizeOfI32 endpoint.pool_idx)
      set_idx := some (usizeOfI32 endpoint.set_idx)
      disk_idx := some (usizeOfI32 endpoint.disk_idx) }
  format := none
  formatted := false

/-- `LocalDisk::new`: create_dir_all on the root may fail with an I/O error
(modelled by the mkdir parameter), which is returned as DiskError::Io;
otherwise the disk record is built from the endpoint. -/
def LocalDisk.new (endpoint : Endpoint) (mkdir : Option IoError) :
    Except DiskError LocalDisk :=
  match mkdir with
  | some e => .error (.Io e)
  | none => .ok (LocalDisk.ofEndpoint endpoint)

/-- `LocalDisk::get_disk_location`. -/
def LocalDisk.get_disk_location (d : LocalDisk) : DiskLocation :=
  d.location

/-- `LocalDisk::get_disk_id`: a TODO stub in the source ("Read from
format.json") that always succeeds with None. -/
def LocalDisk.get_disk_id (_d : LocalDisk) : Except DiskError (Option Uuid) :=
  .ok none

/-- `LocalDisk::set_disk_id`: a TODO stub in the source ("Write to
format.json") that ignores the id; the unchanged disk is returned as the
post-state. -/
def LocalDisk.set_disk_id (d : LocalDisk) (_id : Option Uuid) :
    Except DiskError LocalDisk :=
  .ok d

/-- tokio::fs::remove_dir_all over the modelled filesystem state (the list of
directories existing under the disk root): removing an absent directory
fails with a not-found I/O error. -/
def removeDirAll (vols : List String) (volume : String) :
    Except IoError (List String) :=
  if volume ∈ vols then
    .ok (vols.erase volume)
  else
    .error { kind := .notFound, message := "No such file or directory" }

/-- `LocalDisk::delete_volume`: remove_dir_all on the joined path, any
failure wrapped as DiskError::Io (`.map_err(DiskError::Io)`). Returns the
filesystem state left behind. -/
def LocalDisk.delete_volume (_d : LocalDisk) (vols : List String)
    (volume : String) : Except DiskError (List String) :=
  match removeDirAll vols volume with
  | .ok rest => .ok rest
  | .error e => .error (.Io e)

/-- `LocalDisk::stat_volume`: if the volume path does not exist the error is
VolumeNotFound, otherwise a VolumeInfo with the name and no creation time. -/
def LocalDisk.stat_volume (_d : LocalDisk) (vols : List String)
    (volume : String) : Except DiskError VolumeInfo :=
  if volume ∈ vols then
    .ok { name := volume, created := none }
  else
    .error .VolumeNotFound

/-- `LocalDisk::walk_dir`: a TODO stub returning MethodNotAllowed. -/
def LocalDisk.walk_dir (_d : LocalDisk) (_opts : WalkDirOptions) :
    Except DiskError Unit :=
  .error .MethodNotAllowed

/-- `LocalDisk::delete_version`: a TODO stub returning MethodNotAllowed. -/
def LocalDisk.delete_version (_d : LocalDisk) (_volume _path : String)
    (_fi : FileInfo) (_force_del_marker : Bool) (_opts : DeleteOptions) :
    Except DiskError Unit :=
  .error .MethodNotAllowed

/-- `LocalDisk::delete_versions`: a TODO stub returning MethodNotAllowed. -/
def LocalDisk.delete_versions (_d : LocalDisk) (_volume : String)
    (_versions : List FileInfoVersions) (_opts : DeleteOptions) :
    Except DiskError (List (Option DiskError)) :=
  .error .MethodNotAllowed

/-- `LocalDisk::delete_paths`: a TODO stub returning MethodNotAllowed. -/
def LocalDisk.delete_paths (_d : LocalDisk) (_volume : String)
    (_paths : List String) : Except DiskError Unit :=
  .error .MethodNotAllowed

/-- `LocalDisk::write_metadata`: a TODO stub returning MethodNotAllowed. -/
def LocalDisk.write_metadata (_d : LocalDisk) (_org_volume _volume _path : String)
    (_fi : FileInfo) : Except DiskError Unit :=
  .error .MethodNotAllowed

/-- `LocalDisk::update_metadata`: a TODO stub returning MethodNotAllowed. -/
def LocalDisk.update_metadata (_d : LocalDisk) (_volume _path : String)
    (_fi : FileInfo) (_opts : UpdateMetadataOpts) : Except DiskError Unit :=
  .error .MethodNotAllowed

/-- `LocalDisk::read_version`: a TODO stub returning MethodNotAllowed. -/
def LocalDisk.read_version (_d : LocalDisk) (_org_volume _volume _path _version_id : String)
    (_opts : ReadOptions) : Except DiskError FileInfo :=
  .error .MethodNotAllowed

/-- `LocalDisk::read_xl`: a TODO stub returning MethodNotAllowed. -/
def LocalDisk.read_xl (_d : LocalDisk) (_volume _path : String)
    (_read_data : Bool) : Except DiskError Bytes :=
  .error .MethodNotAllowed

/-- `LocalDisk::rename_data`: a TODO stub returning MethodNotAllowed. -/
def LocalDisk.rename_data (_d : LocalDisk) (_src_volume _src_path : String)
    (_file_info : FileInfo) (_dst_volume _dst_path : String) :
    Except DiskError RenameDataResp :=
  .error .MethodNotAllowed

/-- `LocalDisk::verify_file`: a TODO stub that SUCCEEDS with a placeholder
response of a single success code. -/
def LocalDisk.verify_file (_d : LocalDisk) (_volume _path : String)
    (_fi : FileInfo) : Except DiskError CheckPartsResp :=
  .ok { results := [CHECK_PART_SUCCESS] }

/-- `LocalDisk::check_parts`: a TODO stub that SUCCEEDS with a placeholder
response of a single success code. -/
def LocalDisk.check_parts (_d : LocalDisk) (_volume _path : String)
    (_fi : FileInfo) : Except DiskError CheckPartsResp :=
  .ok { results := [CHECK_PART_SUCCESS] }

/-- `LocalDisk::read_multiple`: a TODO stub that SUCCEEDS with an empty
response list. -/
def LocalDisk.read_multiple (_d : LocalDisk) (_req : ReadMultipleReq) :
    Except DiskError (List ReadMultipleResp) :=
  .ok []

/-- remote.rs: the RemoteDisk record; the id cell is the cached disk
identifier guarded by a mutex in the source. -/
structure RemoteDisk where
  id : Option Uuid
  addr : String
  url : String
  root : String
  endpoint : Endpoint

/-- `RemoteDisk::new`: captures the endpoint; the addr string formatting
(scheme://host:port) is irrelevant to the claims and kept as the url. -/
def RemoteDisk.new (ep : Endpoint) : RemoteDisk where
  id := none
  addr := ep.url
  url := ep.url
  root := ep.get_file_path
  endpoint := ep

/-- `RemoteDisk::get_disk_location`: each negative endpoint index becomes
None, a nonnegative one is cast to usize. -/
def RemoteDisk.get_disk_location (d : RemoteDisk) : DiskLocation where
  pool_idx :=
    if d.endpoint.pool_idx < 0 then none else some (usizeOfI32 d.endpoint.pool_idx)
  set_idx :=
    if d.endpoint.set_idx < 0 then none else some (usizeOfI32 d.endpoint.set_idx)
  disk_idx :=
    if d.endpoint.disk_idx < 0 then none else some (usizeOfI32 d.endpoint.disk_idx)

/-- `RemoteDisk::get_disk_id`: the cached value behind the lock. -/
def RemoteDisk.get_disk_id (d : RemoteDisk) : Except DiskError (Option Uuid) :=
  .ok d.id

/-- `RemoteDisk::set_disk_id`: replaces the cached value; the updated disk is
returned as the post-state. -/
def RemoteDisk.set_disk_id (d : RemoteDisk) (id : Option Uuid) :
    Except DiskError RemoteDisk :=
  .ok { d with id := id }

/-- A typed RPC response of the remote control channel: a success flag and
an optional error string (proto_gen MakeVolumeResponse and friends). -/
structure RpcResponse where
  success : Bool
  error : Option String
deriving DecidableEq

/-- The outcome of the transport layer for one control call: the client could
not be obtained, the gRPC call itself failed, or a typed response arrived. -/
inductive Transport (α : Type) where
  | clientErr (msg : String)
  | callErr (msg : String)
  | ok (resp : α)

/-- Rust's Debug formatting of an Option of String, as `format!` renders the
`{:?}` of `response.error`. -/
def fmtDebugOption : Option String → String
  | none => "None"
  | some s => "Some(\"" ++ s ++ "\")"

/-- `RemoteDisk::make_volume`: a failure to obtain the client and a gRPC
call failure are both wrapped through DiskError::other (the generic Io
kind); a transport success whose body carries success=false is surfaced as
DiskError::custom with a message embedding the response's error string. -/
def RemoteDisk.make_volume (_d : RemoteDisk) (_volume : String)
    (transport : Transport RpcResponse) : Except DiskError Unit :=
  match transport with
  | .clientErr msg => .error (DiskError.other ("can not get client, err: " ++ msg))
  | .callErr msg => .error (DiskError.other ("gRPC error: " ++ msg))
  | .ok response =>
      if !response.success then
        .error (DiskError.custom ("Failed to make volume: " ++ fmtDebugOption response.error))
      else
        .ok ()

/-- `RemoteDisk::delete_version`: not wired to a transport call. -/
def RemoteDisk.delete_version (_d : RemoteDisk) (_volume _path : String)
    (_fi : FileInfo) (_force_del_marker : Bool) (_opts : DeleteOptions) :
    Except DiskError Unit :=
  .error (DiskError.not_implemented "delete_version")

/-- `RemoteDisk::delete_versions`: not wired to a transport call. -/
def RemoteDisk.delete_versions (_d : RemoteDisk) (_volume : String)
    (_versions : List FileInfoVersions) (_opts : DeleteOptions) :
    Except DiskError (List (Option DiskError)) :=
  .error (DiskError.not_implemented "delete_versions")

/-- `RemoteDisk::delete_paths`: not wired to a transport call. -/
def RemoteDisk.delete_paths (_d : RemoteDisk) (_volume : String)
    (_paths : List String) : Except DiskError Unit :=
  .error (DiskError.not_implemented "delete_paths")

/-- `RemoteDisk::write_metadata`: not wired to a transport call. -/
def RemoteDisk.write_metadata (_d : RemoteDisk) (_org_volume _volume _path : String)
    (_fi : FileInfo) : Except DiskError Unit :=
  .error (DiskError.not_implemented "write_metadata")

/-- `RemoteDisk::update_metadata`: not wired to a transport call. -/
def RemoteDisk.update_metadata (_d : RemoteDisk) (_volume _path : String)
    (_fi : FileInfo) (_opts : UpdateMetadataOpts) : Except DiskError Unit :=
  .error (DiskError.not_implemented "update_metadata")

/-- `RemoteDisk::read_version`: not wired to a transport call. -/
def RemoteDisk.read_version (_d : RemoteDisk) (_org_volume _volume _path _version_id : String)
    (_opts : ReadOptions) : Except DiskError FileInfo :=
  .error (DiskError.not_implemented "read_version")

/-- `RemoteDisk::read_xl`: not wired to a transport call. -/
def RemoteDisk.read_xl (_d : RemoteDisk) (_volume _path : String)
    (_read_data : Bool) : Except DiskError Bytes :=
  .error (DiskError.not_implemented "read_xl")

/-- `RemoteDisk::rename_data`: not wired to a transport call. -/
def RemoteDisk.rename_data (_d : RemoteDisk) (_src_volume _src_path : String)
    (_fi : FileInfo) (_dst_volume _dst_path : String) :
    Except DiskError RenameDataResp :=
  .error (DiskError.not_implemented "rename_data")

/-- `RemoteDisk::list_dir`: not wired to a transport call. -/
def RemoteDisk.list_dir (_d : RemoteDisk) (_origvolume _volume _dir_path : String)
    (_count : Int) : Except DiskError (List String) :=
  .error (DiskError.not_implemented "list_dir")

/-- `RemoteDisk::create_file`: not wired to a transport call. -/
def RemoteDisk.create_file (_d : RemoteDisk) (_origvolume _volume _path : String)
    (_file_size : Int) : Except DiskError Unit :=
  .error (DiskError.not_implemented "create_file")

/-- `RemoteDisk::rename_file`: not wired to a transport call. -/
def RemoteDisk.rename_file (_d : RemoteDisk) (_src_volume _src_path _dst_volume _dst_path : String) :
    Except DiskError Unit :=
  .error (DiskError.not_implemented "rename_file")

/-- `RemoteDisk::rename_part`: not wired to a transport call. -/
def RemoteDisk.rename_part (_d : RemoteDisk) (_src_volume _src_path _dst_volume _dst_path : String)
    (_meta : Bytes) : Except DiskError Unit :=
  .error (DiskError.not_implemented "rename_part")

/-- `RemoteDisk::delete`: not wired to a transport call. -/
def RemoteDisk.delete (_d : RemoteDisk) (_volume _path : String)
    (_opt : DeleteOptions) : Except DiskError Unit :=
  .error (DiskError.not_implemented "delete")

/-- `RemoteDisk::verify_file`: not wired to a transport call. -/
def RemoteDisk.verify_file (_d : RemoteDisk) (_volume _path : String)
    (_fi : FileInfo) : Except DiskError CheckPartsResp :=
  .error (DiskError.not_implemented "verify_file")

/-- `RemoteDisk::check_parts`: not wired to a transport call. -/
def RemoteDisk.check_parts (_d : RemoteDisk) (_volume _path : String)
    (_fi : FileInfo) : Except DiskError CheckPartsResp :=
  .error (DiskError.not_implemented "check_parts")

/-- `RemoteDisk::read_multiple`: not wired to a transport call. -/
def RemoteDisk.read_multiple (_d : RemoteDisk) (_req : ReadMultipleReq) :
    Except DiskError (List ReadMultipleResp) :=
  .error (DiskError.not_implemented "read_multiple")

/-- `RemoteDisk::write_all`: not wired to a transport call. -/
def RemoteDisk.write_all (_d : RemoteDisk) (_volume _path : String)
    (_data : Bytes) : Except DiskError Unit :=
  .error (DiskError.not_implemented "write_all")

/-- `RemoteDisk::read_all`: not wired to a transport call. -/
def RemoteDisk.read_all (_d : RemoteDisk) (_volume _path : String) :
    Except DiskError Bytes :=
  .error (DiskError.not_implemented "read_all")

/-- `RemoteDisk::disk_info`: not wired to a transport call. -/
def RemoteDisk.disk_info (_d : RemoteDisk) (_opts : DiskInfoOptions) :
    Except DiskError DiskInfo :=
  .error (DiskError.not_implemented "disk_info")

/-- Concrete endpoints and option records used by closed theorems. -/
def sampleEndpoint : Endpoint :=
  { url := "/data/disk0", is_local := true, pool_idx := 0, set_idx := 1, disk_idx := 2 }

/-- The local disk built from the sample endpoint. -/
def sampleLocalDisk : LocalDisk :=
  LocalDisk.ofEndpoint sampleEndpoint

/-- An endpoint whose placement is unknown (all indices -1), mirroring the
test_remote_disk_basic_properties fixture of remote.rs. -/
def epNeg : Endpoint :=
  { url := "http://remote-server:9000", is_local := false,
    pool_idx := -1, set_idx := -1, disk_idx := -1 }

/-- An endpoint with nonnegative placement indices. -/
def epPos : Endpoint :=
  { url := "/data/disk1", is_local := true, pool_idx := 3, set_idx := 4, disk_idx := 5 }

/-- Sample walk options. -/
def sampleWalkOpts : WalkDirOptions :=
  { bucket := "bucket", base_dir := "", recursive := true, report_notfound := false,
    filter_prefix := none, forward_to := none, limit := 0, disk_id := "" }

/-- Sample file info. -/
def sampleFileInfo : FileInfo :=
  { name := "obj", version_id := none, size := 0, mod_time := none }

/-- Sample read-multiple request. -/
def sampleReadMultipleReq : ReadMultipleReq :=
  { bucket := "bucket", prefix_ := "p", files := [], max_size := 0,
    metadata_only := false, abort404 := false, max_results := 0 }

/-- The kind comparison against FileNotFound or FileVersionNotFound used by
the is_all_not_found loop agrees with propositional equality, because both
kinds carry no payload. -/
theorem eq_notfound_or_iff (e : DiskError) :
    (DiskError.eq e .FileNotFound || DiskError.eq e .FileVersionNotFound) = true ↔
      e = .FileNotFound ∨ e = .FileVersionNotFound := by
  cases e <;> simp [DiskError.eq, DiskError.discriminant]

/-- The loop of is_all_not_found accepts exactly the lists whose entries are
all present and of one of the two not-found kinds. -/
theorem is_all_not_found_loop_iff (errs : List (Option DiskError)) :
    DiskError.is_all_not_found_loop errs = true ↔
      ∀ e ∈ errs, e = some DiskError.FileNotFound ∨ e = some DiskError.FileVersionNotFound := by
  induction errs with
  | nil => simp [DiskError.is_all_not_found_loop]
  | cons hd tl ih =>
    cases hd with
    | none => simp [DiskError.is_all_not_found_loop]
    | some e =>
      by_cases hc : e = DiskError.FileNotFound ∨ e = DiskError.FileVersionNotFound
      · have hb := (eq_notfound_or_iff e).mpr hc
        have hh : some e = some DiskError.FileNotFound ∨
            some e = some DiskError.FileVersionNotFound := by
          rcases hc with h | h
          · exact Or.inl (by rw [h])
          · exact Or.inr (by rw [h])
        simp [DiskError.is_all_not_found_loop, hb, List.forall_mem_cons, hh, ih]
        exact fun _ => hc
      · have hb : (DiskError.eq e .FileNotFound || DiskError.eq e .FileVersionNotFound) = false := by
          rw [← Bool.not_eq_true]
          exact fun h => hc ((eq_notfound_or_iff e).mp h)
        have hh : ¬(some e = some DiskError.FileNotFound ∨
            some e = some DiskError.FileVersionNotFound) := by
          simpa using hc
        simp [DiskError.is_all_not_found_loop, hb, List.forall_mem_cons, hh]
        exact fun h => absurd h hc

/-- C1: DiskError::is_all_not_found returns true iff the list is non-empty
and every entry is present (Some) and is FileNotFound or
FileVersionNotFound; consequently it returns false for the empty list, for
any list with an absent-error (None) entry, and for any list containing an
error of any other kind. -/
theorem c1_is_all_not_found_iff (errs : List (Option DiskError)) :
    DiskError.is_all_not_found errs = true ↔
      errs ≠ [] ∧ ∀ e ∈ errs,
        e = some DiskError.FileNotFound ∨ e = some DiskError.FileVersionNotFound := by
  constructor
  · intro h
    rw [DiskError.is_all_not_found, Bool.and_eq_true] at h
    refine ⟨?_, (is_all_not_found_loop_iff errs).mp h.1⟩
    intro hnil
    rw [hnil] at h
    simp at h
  · rintro ⟨hne, hall⟩
    rw [DiskError.is_all_not_found, Bool.and_eq_true]
    refine ⟨(is_all_not_found_loop_iff errs).mpr hall, ?_⟩
    cases errs with
    | nil => exact absurd rfl hne
    | cons a l => rfl

/-- C2: conv_part_err_to_int is total and maps None to 1 (success),
DiskNotFound to 2, VolumeNotFound to 3, FileNotFound to 4, FileCorrupt to 5,
and every other kind to 0 (unknown). -/
theorem c2_conv_part_err_to_int_total_map :
    conv_part_err_to_int none = 1 ∧
    conv_part_err_to_int (some .DiskNotFound) = 2 ∧
    conv_part_err_to_int (some .VolumeNotFound) = 3 ∧
    conv_part_err_to_int (some .FileNotFound) = 4 ∧
    conv_part_err_to_int (some .FileCorrupt) = 5 ∧
    ∀ e : DiskError, e ≠ .DiskNotFound → e ≠ .VolumeNotFound → e ≠ .FileNotFound →
      e ≠ .FileCorrupt → conv_part_err_to_int (some e) = 0 := by
  refine ⟨rfl, rfl, rfl, rfl, rfl, ?_⟩
  intro e h1 h2 h3 h4
  cases e <;> simp_all [conv_part_err_to_int, CHECK_PART_UNKNOWN]

/-- C2 witness: an error of another kind (Unexpected) maps to 0. -/
theorem c2_conv_part_err_to_int_witness :
    conv_part_err_to_int (some DiskError.Unexpected) = 0 :=
  c2_conv_part_err_to_int_total_map.2.2.2.2.2 DiskError.Unexpected
    (by decide) (by decide) (by decide) (by decide)

/-- C3: the classifier is context-sensitive: a not-found I/O error becomes
FileNotFound, VolumeNotFound or UnformattedDisk depending on the converting
function; permission-denied becomes FileAccessDenied, VolumeAccessDenied or
DiskAccessDenied; already-exists becomes VolumeExists in the volume context;
and any kind a classifier does not match passes through as the generic Io
kind. -/
theorem c3_classifier_context_sensitive :
    (∀ e : IoError, e.kind = .notFound →
        to_file_error e = .FileNotFound ∧ to_volume_error e = .VolumeNotFound ∧
        to_unformatted_disk_error e = .UnformattedDisk) ∧
    (∀ e : IoError, e.kind = .permissionDenied →
        to_file_error e = .FileAccessDenied ∧ to_volume_error e = .VolumeAccessDenied ∧
        to_access_error e = .DiskAccessDenied) ∧
    (∀ e : IoError, e.kind = .alreadyExists → to_volume_error e = .VolumeExists) ∧
    (∀ e : IoError,
        (e.kind ≠ .notFound → e.kind ≠ .permissionDenied → e.kind ≠ .invalidInput →
          to_file_error e = .Io e) ∧
        (e.kind ≠ .permissionDenied → to_access_error e = .Io e) ∧
        (e.kind ≠ .notFound → e.kind ≠ .permissionDenied → e.kind ≠ .alreadyExists →
          to_volume_error e = .Io e) ∧
        (e.kind ≠ .notFound → to_unformatted_disk_error e = .Io e)) := by
  refine ⟨?_, ?_, ?_, ?_⟩
  · intro e hk
    obtain ⟨k, m⟩ := e
    cases k <;> simp_all [to_file_error, to_volume_error, to_unformatted_disk_error]
  · intro e hk
    obtain ⟨k, m⟩ := e
    cases k <;> simp_all [to_file_error, to_volume_error, to_access_error]
  · intro e hk
    obtain ⟨k, m⟩ := e
    cases k <;> simp_all [to_volume_error]
  · intro e
    obtain ⟨k, m⟩ := e
    cases k <;>
      simp [to_file_error, to_access_error, to_volume_error, to_unformatted_disk_error]

/-- C3 witness: a concrete not-found error classifies as FileNotFound in the
file context, and a concrete timed-out error passes through untouched in the
access context. -/
theorem c3_classifier_witness :
    to_file_error { kind := .notFound, message := "m" } = DiskError.FileNotFound ∧
    to_access_error { kind := .timedOut, message := "m" } =
      DiskError.Io { kind := .timedOut, message := "m" } :=
  ⟨(c3_classifier_context_sensitive.1 { kind := .notFound, message := "m" } rfl).1,
   (c3_classifier_context_sensitive.2.2.2 { kind := .timedOut, message := "m" }).2.1
     (by decide)⟩

/-- C4: DiskError equality compares exactly the discriminants, so payloads
(messages, operation names, nested I/O causes) are ignored: two Io errors
with different underlying messages compare equal, as do two NotImplemented
or Custom errors, and equal values feed the same input to any hasher. -/
theorem c4_eq_and_hash_by_kind :
    (∀ a b : DiskError, DiskError.eq a b = true ↔ a.discriminant = b.discriminant) ∧
    (∀ m1 m2 : IoError, DiskError.eq (.Io m1) (.Io m2) = true) ∧
    (∀ o1 o2 : String, DiskError.eq (.NotImplemented o1) (.NotImplemented o2) = true) ∧
    (∀ s1 s2 : String, DiskError.eq (.Custom s1) (.Custom s2) = true) ∧
    (∀ (hasher : Nat → Nat) (a b : DiskError),
        DiskError.eq a b = true →
        DiskError.hashWith hasher a = DiskError.hashWith hasher b) := by
  refine ⟨?_, ?_, ?_, ?_, ?_⟩
  · intro a b
    simp [DiskError.eq]
  · intro m1 m2
    rfl
  · intro o1 o2
    rfl
  · intro s1 s2
    rfl
  · intro hasher a b h
    have hd : a.discriminant = b.discriminant := by simpa [DiskError.eq] using h
    simp [DiskError.hashWith, hd]

/-- C4 witness: two Io errors with different kinds and messages hash
identically under a concrete hasher. -/
theorem c4_eq_and_hash_witness :
    DiskError.hashWith (fun n => n + 7) (.Io { kind := .other, message := "a" }) =
      DiskError.hashWith (fun n => n + 7) (.Io { kind := .notFound, message := "b" }) :=
  c4_eq_and_hash_by_kind.2.2.2.2 (fun n => n + 7)
    (.Io { kind := .other, message := "a" })
    (.Io { kind := .notFound, message := "b" }) (by decide)

/-- C5 counterexample: on the local engine, walk_dir (a TODO stub in the
source) returns MethodNotAllowed rather than NotImplemented carrying
"walk_dir", and verify_file and read_multiple succeed with placeholder
values, contradicting the claim that every unimplemented operation of both
engines returns the not-implemented kind and never succeeds with a
placeholder. -/
theorem c5_counterexample :
    LocalDisk.walk_dir sampleLocalDisk sampleWalkOpts =
      Except.error DiskError.MethodNotAllowed ∧
    DiskError.MethodNotAllowed ≠ DiskError.not_implemented "walk_dir" ∧
    LocalDisk.verify_file sampleLocalDisk "v" "p" sampleFileInfo =
      Except.ok { results := [CHECK_PART_SUCCESS] } ∧
    LocalDisk.read_multiple sampleLocalDisk sampleReadMultipleReq = Except.ok [] :=
  ⟨rfl, by decide, rfl, rfl⟩

/-- C5 amended: on the remote client every unimplemented operation returns
NotImplemented carrying its own name; on the local engine the unimplemented
walk/metadata operations return MethodNotAllowed (with no operation name),
and verify_file, check_parts and read_multiple succeed with placeholder
values. -/
theorem c5_amended_unimplemented_surface (ld : LocalDisk) (rd : RemoteDisk)
    (ov v p v2 p2 vid : String) (fi : FileInfo) (fivs : List FileInfoVersions)
    (paths : List String) (fdm rdata : Bool) (dopts : DeleteOptions)
    (uopts : UpdateMetadataOpts) (ropts : ReadOptions) (wopts : WalkDirOptions)
    (req : ReadMultipleReq) (data : Bytes) (count size : Int)
    (iopts : DiskInfoOptions) :
    LocalDisk.walk_dir ld wopts = .error .MethodNotAllowed ∧
    LocalDisk.delete_version ld v p fi fdm dopts = .error .MethodNotAllowed ∧
    LocalDisk.delete_versions ld v fivs dopts = .error .MethodNotAllowed ∧
    LocalDisk.delete_paths ld v paths = .error .MethodNotAllowed ∧
    LocalDisk.write_metadata ld ov v p fi = .error .MethodNotAllowed ∧
    LocalDisk.update_metadata ld v p fi uopts = .error .MethodNotAllowed ∧
    LocalDisk.read_version ld ov v p vid ropts = .error .MethodNotAllowed ∧
    LocalDisk.read_xl ld v p rdata = .error .MethodNotAllowed ∧
    LocalDisk.rename_data ld v p fi v2 p2 = .error .MethodNotAllowed ∧
    LocalDisk.verify_file ld v p fi = .ok { results := [CHECK_PART_SUCCESS] } ∧
    LocalDisk.check_parts ld v p fi = .ok { results := [CHECK_PART_SUCCESS] } ∧
    LocalDisk.read_multiple ld req = .ok [] ∧
    RemoteDisk.delete_version rd v p fi fdm dopts =
      .error (.NotImplemented "delete_version") ∧
    RemoteDisk.delete_versions rd v fivs dopts =
      .error (.NotImplemented "delete_versions") ∧
    RemoteDisk.delete_paths rd v paths = .error (.NotImplemented "delete_paths") ∧
    RemoteDisk.write_metadata rd ov v p fi =
      .error (.NotImplemented "write_metadata") ∧
    RemoteDisk.update_metadata rd v p fi uopts =
      .error (.NotImplemented "update_metadata") ∧
    RemoteDisk.read_version rd ov v p vid ropts =
      .error (.NotImplemented "read_version") ∧
    RemoteDisk.read_xl rd v p rdata = .error (.NotImplemented "read_xl") ∧
    RemoteDisk.rename_data rd v p fi v2 p2 = .error (.NotImplemented "rename_data") ∧
    RemoteDisk.list_dir rd ov v p count = .error (.NotImplemented "list_dir") ∧
    RemoteDisk.create_file rd ov v p size = .error (.NotImplemented "create_file") ∧
    RemoteDisk.rename_file rd v p v2 p2 = .error (.NotImplemented "rename_file") ∧
    RemoteDisk.rename_part rd v p v2 p2 data =
      .error (.NotImplemented "rename_part") ∧
    RemoteDisk.delete rd v p dopts = .error (.NotImplemented "delete") ∧
    RemoteDisk.verify_file rd v p fi = .error (.NotImplemented "verify_file") ∧
    RemoteDisk.check_parts rd v p fi = .error (.NotImplemented "check_parts") ∧
    RemoteDisk.read_multiple rd req = .error (.NotImplemented "read_multiple") ∧
    RemoteDisk.write_all rd v p data = .error (.NotImplemented "write_all") ∧
    RemoteDisk.read_all rd v p = .error (.NotImplemented "read_all") ∧
    RemoteDisk.disk_info rd iopts = .error (.NotImplemented "disk_info") :=
  ⟨rfl, rfl, rfl, rfl, rfl, rfl, rfl, rfl, rfl, rfl, rfl, rfl, rfl, rfl, rfl,
   rfl, rfl, rfl, rfl, rfl, rfl, rfl, rfl, rfl, rfl, rfl, rfl, rfl, rfl, rfl, rfl⟩

/-- String append is associative (by associativity of the underlying lists). -/
theorem strAppendAssoc : ∀ (a b c : String), a ++ b ++ c = a ++ (b ++ c)
  | ⟨ad⟩, ⟨bd⟩, ⟨cd⟩ => congrArg String.mk (List.append_assoc ad bd cd)

/-- C6: on the remote client's make_volume, a transport-level failure (client
acquisition or the gRPC call itself) surfaces as the generic classified Io
kind, while a transport success whose body carries success=false and an
error message surfaces as a Custom error whose message contains that
message; the two outcomes are distinct error kinds. -/
theorem c6_make_volume_distinct_failure_paths :
    (∀ (d : RemoteDisk) (v msg : String),
        RemoteDisk.make_volume d v (.clientErr msg) =
          .error (DiskError.Io
            { kind := .other, message := "can not get client, err: " ++ msg })) ∧
    (∀ (d : RemoteDisk) (v msg : String),
        RemoteDisk.make_volume d v (.callErr msg) =
          .error (DiskError.Io { kind := .other, message := "gRPC error: " ++ msg })) ∧
    (∀ (d : RemoteDisk) (v msg : String),
        RemoteDisk.make_volume d v (.ok { success := false, error := some msg }) =
          .error (DiskError.Custom
            ("Failed to make volume: " ++ fmtDebugOption (some msg))) ∧
        ∃ pre post : String,
          "Failed to make volume: " ++ fmtDebugOption (some msg) =
            pre ++ msg ++ post) ∧
    (∀ (e : IoError) (m : String), DiskError.Io e ≠ DiskError.Custom m) := by
  refine ⟨fun d v msg => rfl, fun d v msg => rfl, ?_, ?_⟩
  · intro d v msg
    refine ⟨rfl, "Failed to make volume: Some(\"", "\")", ?_⟩
    have hlit : ("Failed to make volume: " ++ "Some(\"" : String) =
        "Failed to make volume: Some(\"" := by decide
    simp only [fmtDebugOption]
    rw [← hlit]
    simp only [strAppendAssoc]
  · intro e m h
    exact DiskError.noConfusion h

/-- C7 counterexample: deleting the absent volume "bucket" on a disk with no
volume directories fails with the generic Io kind wrapping the underlying
not-found I/O error, not with VolumeNotFound as the claim states. -/
theorem c7_counterexample :
    LocalDisk.delete_volume sampleLocalDisk [] "bucket" =
      .error (DiskError.Io
        { kind := .notFound, message := "No such file or directory" }) ∧
    DiskError.Io { kind := .notFound, message := "No such file or directory" } ≠
      DiskError.VolumeNotFound :=
  ⟨rfl, by decide⟩

/-- C7 amended: delete_volume of an absent volume fails with the generic Io
kind wrapping the not-found I/O error (the source maps the raw error with
DiskError::Io, not with the volume classifier), while stat_volume of an
absent volume does fail with VolumeNotFound. -/
theorem c7_amended_absent_volume (d : LocalDisk) (vols : List String) (v : String)
    (h : v ∉ vols) :
    LocalDisk.delete_volume d vols v =
      .error (DiskError.Io
        { kind := .notFound, message := "No such file or directory" }) ∧
    LocalDisk.stat_volume d vols v = .error .VolumeNotFound := by
  constructor
  · simp [LocalDisk.delete_volume, removeDirAll, h]
  · simp [LocalDisk.stat_volume, h]

/-- C7 witness: a concrete disk whose only volume is "other". -/
theorem c7_amended_witness :
    LocalDisk.delete_volume sampleLocalDisk ["other"] "bucket" =
      .error (DiskError.Io
        { kind := .notFound, message := "No such file or directory" }) ∧
    LocalDisk.stat_volume sampleLocalDisk ["other"] "bucket" =
      .error .VolumeNotFound :=
  c7_amended_absent_volume sampleLocalDisk ["other"] "bucket" (by decide)

/-- C8: the local engine's identity accessors are TODO stubs: set_disk_id
discards the id it is given (the disk is unchanged) and get_disk_id always
yields Ok(None), so after storing the id "u1" a read still yields none
rather than some "u1" — the identity is not persisted as the claim (and the
source's own TODO comments) require. -/
theorem c8_local_disk_id_not_persisted :
    LocalDisk.set_disk_id sampleLocalDisk (some "u1") = .ok sampleLocalDisk ∧
    LocalDisk.get_disk_id sampleLocalDisk = .ok none ∧
    (Except.ok (none : Option Uuid) : Except DiskError (Option Uuid)) ≠
      Except.ok (some "u1") :=
  ⟨rfl, rfl, by simp⟩

/-- The spec's reading of "preserves the pool/set/disk indices exactly": the
read-back location carries each index present and numerically equal to the
endpoint's signed index. -/
def preservesTriple (ep : Endpoint) (loc : DiskLocation) : Prop :=
  loc.pool_idx.map (Int.ofNat) = some ep.pool_idx ∧
  loc.set_idx.map (Int.ofNat) = some ep.set_idx ∧
  loc.disk_idx.map (Int.ofNat) = some ep.disk_idx

/-- C9 counterexample: for the endpoint with all indices -1 (the "placement
unknown" fixture of the source's own tests), neither engine preserves the
triple: the local engine casts -1 to 2^64 - 1 and the remote engine maps it
to absent. -/
theorem c9_counterexample :
    ¬ preservesTriple epNeg (LocalDisk.get_disk_location (LocalDisk.ofEndpoint epNeg)) ∧
    ¬ preservesTriple epNeg (RemoteDisk.get_disk_location (RemoteDisk.new epNeg)) := by
  constructor
  · intro hp
    have h1 := hp.1
    simp [LocalDisk.get_disk_location, LocalDisk.ofEndpoint, epNeg, usizeOfI32] at h1
  · intro hp
    have h1 := hp.1
    simp [RemoteDisk.get_disk_location, RemoteDisk.new, epNeg] at h1

/-- The unconditional usize cast is the identity on indices in the
nonnegative i32 range. -/
theorem usizeOfI32_eq_self (x : Int) (h0 : 0 ≤ x) (h1 : x < 2 ^ 31) :
    (usizeOfI32 x : Int) = x := by
  unfold usizeOfI32
  rw [Int.emod_eq_of_lt h0 (lt_trans h1 (by norm_num))]
  exact Int.toNat_of_nonneg h0

/-- C9 amended: for every endpoint whose pool/set/disk indices are
nonnegative (i.e. an actual placement, within the i32 range), building a
local or a remote disk and reading back get_disk_location preserves the
indices exactly; and DiskLocation::valid returns true iff all three indices
are present. -/
theorem c9_amended_roundtrip (ep : Endpoint)
    (hp0 : 0 ≤ ep.pool_idx) (hs0 : 0 ≤ ep.set_idx) (hd0 : 0 ≤ ep.disk_idx)
    (hp1 : ep.pool_idx < 2 ^ 31) (hs1 : ep.set_idx < 2 ^ 31) (hd1 : ep.disk_idx < 2 ^ 31) :
    preservesTriple ep (LocalDisk.get_disk_location (LocalDisk.ofEndpoint ep)) ∧
    preservesTriple ep (RemoteDisk.get_disk_location (RemoteDisk.new ep)) ∧
    ∀ loc : DiskLocation,
      loc.valid = true ↔
        loc.pool_idx.isSome ∧ loc.set_idx.isSome ∧ loc.disk_idx.isSome := by
  refine ⟨?_, ?_, ?_⟩
  · refine ⟨?_, ?_, ?_⟩ <;>
      simp [LocalDisk.get_disk_location, LocalDisk.ofEndpoint,
        usizeOfI32_eq_self _ hp0 hp1, usizeOfI32_eq_self _ hs0 hs1,
        usizeOfI32_eq_self _ hd0 hd1, preservesTriple]
  · refine ⟨?_, ?_, ?_⟩ <;>
      simp [RemoteDisk.get_disk_location, RemoteDisk.new, preservesTriple,
        not_lt.mpr hp0, not_lt.mpr hs0, not_lt.mpr hd0,
        usizeOfI32_eq_self _ hp0 hp1, usizeOfI32_eq_self _ hs0 hs1,
        usizeOfI32_eq_self _ hd0 hd1]
  · intro loc
    simp [DiskLocation.valid, and_assoc]

/-- C9 witness: the round trip at the concrete endpoint (3, 4, 5), and the
valid predicate evaluated at a location missing its disk index. -/
theorem c9_amended_witness :
    preservesTriple epPos (LocalDisk.get_disk_location (LocalDisk.ofEndpoint epPos)) ∧
    preservesTriple epPos (RemoteDisk.get_disk_location (RemoteDisk.new epPos)) ∧
    (DiskLocation.valid { pool_idx := some 3, set_idx := some 4, disk_idx := none } = true ↔
      (some 3 : Option Nat).isSome ∧ (some 4 : Option Nat).isSome ∧
        (none : Option Nat).isSome) := by
  have h := c9_amended_roundtrip epPos (by decide) (by decide) (by decide)
    (by decide) (by decide) (by decide)
  exact ⟨h.1, h.2.1, h.2.2 { pool_idx := some 3, set_idx := some 4, disk_idx := none }⟩

/-- C10: every LocalDisk built by LocalDisk::new reports a location with all
three indices present (valid is always true), because the signed endpoint
indices are cast to usize unconditionally; RemoteDisk::get_disk_location, by
contrast, maps each negative index to None. -/
theorem c10_local_location_always_valid :
    (∀ (ep : Endpoint) (mkdir : Option IoError) (d : LocalDisk),
        LocalDisk.new ep mkdir = .ok d →
        (LocalDisk.get_disk_location d).valid = true) ∧
    (∀ ep : Endpoint, ep.pool_idx < 0 →
        (RemoteDisk.get_disk_location (RemoteDisk.new ep)).pool_idx = none) ∧
    (∀ ep : Endpoint, ep.set_idx < 0 →
        (RemoteDisk.get_disk_location (RemoteDisk.new ep)).set_idx = none) ∧
    (∀ ep : Endpoint, ep.disk_idx < 0 →
        (RemoteDisk.get_disk_location (RemoteDisk.new ep)).disk_idx = none) := by
  refine ⟨?_, ?_, ?_, ?_⟩
  · intro ep mkdir d h
    cases mkdir with
    | some e => simp [LocalDisk.new] at h
    | none =>
      simp [LocalDisk.new] at h
      rw [← h]
      simp [LocalDisk.get_disk_location, LocalDisk.ofEndpoint, DiskLocation.valid]
  · intro ep h
    simp [RemoteDisk.get_disk_location, RemoteDisk.new, h]
  · intro ep h
    simp [RemoteDisk.get_disk_location, RemoteDisk.new, h]
  · intro ep h
    simp [RemoteDisk.get_disk_location, RemoteDisk.new, h]

/-- C10 witness: the sample local disk (indices 0, 1, 2) reports a valid
location, and the remote disk over the all-negative endpoint reports its
pool index absent. -/
theorem c10_local_location_witness :
    (LocalDisk.get_disk_location sampleLocalDisk).valid = true ∧
    (RemoteDisk.get_disk_location (RemoteDisk.new epNeg)).pool_idx = none :=
  ⟨c10_local_location_always_valid.1 sampleEndpoint none sampleLocalDisk rfl,
   c10_local_location_always_valid.2.1 epNeg (by decide)⟩
